import Mathlib

/-!
Verification of the ChatKit session-proxy handler (`api/create-session.py`).

The handler is a single linear Python function.  We embed it shallowly:

* JSON values are the inductive `JsonValue` (numbers as `Int`; the handler
  only ever tests numbers for truthiness and equality, so floats are not
  needed).  A Python `dict` produced by `json.loads` is modelled as an
  association list with unique keys, looked up with `List.lookup`.
* Python truthiness (`if not x`, `x or y`) is made explicit (`truthy`).
* Operations that can raise a Python exception return `Except String α`;
  the error string names the Python exception class (the embedding does not
  reproduce CPython's exact message text).
* The nondeterministic parts of a request — environment variables, the
  already-read request body, the freshly generated UUID, and the outcome of
  the outbound HTTP call — are inputs in `RequestInput`.  `body = none`
  models the cases the code's `try/except` collapses to `{}`: empty body,
  bad `Content-Length`, or a JSON parse failure.  `freshUuid` is the value
  `str(uuid.uuid4())` would produce if the handler asks for one.
-/

set_option autoImplicit false

/-- JSON values, as produced by `json.loads`. -/
inductive JsonValue where
  | null
  | bool (b : Bool)
  | num (n : Int)
  | str (s : String)
  | arr (xs : List JsonValue)
  | obj (kvs : List (String × JsonValue))

/-- Python truthiness of a JSON value (`bool(v)` in Python). -/
def truthy : JsonValue → Bool
  | .null => false
  | .bool b => b
  | .num n => n != 0
  | .str s => s != ""
  | .arr xs => !xs.isEmpty
  | .obj kvs => !kvs.isEmpty

/-- Python truthiness of an optional JSON value (`None` is falsy). -/
def truthyO : Option JsonValue → Bool
  | none => false
  | some v => truthy v

/-- Python truthiness of `os.getenv(...)`: `None` and `""` are falsy. -/
def truthyStrO : Option String → Bool
  | none => false
  | some s => s != ""

/-- Python `==` between a `str` and an arbitrary JSON value. -/
def strEqJson (s : String) : JsonValue → Bool
  | .str t => s == t
  | _ => false

/-- Does the second list start with the first (`beginsWith pat l`)? -/
def beginsWith : List Char → List Char → Bool
  | [], _ => true
  | _ :: _, [] => false
  | p :: ps, c :: cs => p == c && beginsWith ps cs

/-- Substring containment on character lists (Python `needle in hay` for `str`). -/
def containsSeq (ndl : List Char) : List Char → Bool
  | [] => beginsWith ndl []
  | c :: t => beginsWith ndl (c :: t) || containsSeq ndl t

/-- Python `s in v` for a string `s` and a JSON value `v`:
key membership for dicts, element equality for lists, substring for strings,
`TypeError` otherwise. -/
def pyIn (s : String) : JsonValue → Except String Bool
  | .obj kvs => .ok (kvs.any fun kv => kv.1 == s)
  | .arr xs => .ok (xs.any (strEqJson s))
  | .str t => .ok (containsSeq s.toList t.toList)
  | .null => .error "TypeError: argument of type NoneType is not iterable"
  | .bool _ => .error "TypeError: argument of type bool is not iterable"
  | .num _ => .error "TypeError: argument of type int is not iterable"

/-- Python `v[k]` for a string key `k` (evaluated only after `k in v`
succeeded, so the dict case cannot miss in the handler). -/
def pyGetItemStr (v : JsonValue) (k : String) : Except String JsonValue :=
  match v with
  | .obj kvs =>
    match kvs.lookup k with
    | some x => .ok x
    | none => .error "KeyError"
  | .arr _ => .error "TypeError: list indices must be integers or slices, not str"
  | .str _ => .error "TypeError: string indices must be integers"
  | .null => .error "TypeError: NoneType is not subscriptable"
  | .bool _ => .error "TypeError: bool is not subscriptable"
  | .num _ => .error "TypeError: int is not subscriptable"

/-- Python `v.get(k)`: defined for dicts, `AttributeError` for every other
JSON value. -/
def pyGetAttrGet (v : JsonValue) (k : String) : Except String (Option JsonValue) :=
  match v with
  | .obj kvs => .ok (kvs.lookup k)
  | .arr _ => .error "AttributeError: list object has no attribute get"
  | .str _ => .error "AttributeError: str object has no attribute get"
  | .null => .error "AttributeError: NoneType object has no attribute get"
  | .bool _ => .error "AttributeError: bool object has no attribute get"
  | .num _ => .error "AttributeError: int object has no attribute get"

/-- Lines 30–33 of `create-session.py`:

    workflow_id = None
    if 'workflow' in body and isinstance(body['workflow'], dict):
        workflow_id = body['workflow'].get('id')
    workflow_id = workflow_id or body.get('workflowId') or os.getenv('VITE_CHATKIT_WORKFLOW_ID')

with Python's short-circuiting of `and` / `or` made explicit. -/
def resolveWorkflowId (body : JsonValue) (envDefault : Option String) :
    Except String (Option JsonValue) :=
  match pyIn "workflow" body with
  | .error e => .error e
  | .ok hasW =>
    match (if hasW then
             match pyGetItemStr body "workflow" with
             | .error e => .error e
             | .ok (.obj wkvs) => .ok (wkvs.lookup "id")
             | .ok _ => .ok none
           else .ok none : Except String (Option JsonValue)) with
    | .error e => .error e
    | .ok wid1 =>
      match (if truthyO wid1 then .ok wid1 else pyGetAttrGet body "workflowId" :
               Except String (Option JsonValue)) with
      | .error e => .error e
      | .ok wid2 => .ok (if truthyO wid2 then wid2 else envDefault.map JsonValue.str)

/-- The characters removed by Python `str.strip()` with no argument. -/
def pySpace (c : Char) : Bool :=
  c == ' ' || c == '\t' || c == '\n' || c == '\r' || c == Char.ofNat 11 || c == Char.ofNat 12

/-- Python `str.strip()` on a character list. -/
def pyStrip (l : List Char) : List Char :=
  ((l.dropWhile pySpace).reverse.dropWhile pySpace).reverse

/-- Python `str.split(';')` on a character list (single-character separator;
`split` on the empty string yields `[""]`). -/
def splitOnSemi : List Char → List (List Char)
  | [] => [[]]
  | c :: cs =>
    match splitOnSemi cs with
    | p :: ps => if c == ';' then [] :: p :: ps else (c :: p) :: ps
    | [] => if c == ';' then [[], []] else [[c]]

/-- One iteration of the loop in `get_cookie_value` (lines 118–121):
strip the pair, test `startswith(name + '=')`, and on a hit return
`cookie.split('=', 1)[1]`, i.e. everything after the first `=`. -/
def cookiePairValue (name : List Char) (pair : List Char) : Option (List Char) :=
  let t := pyStrip pair
  if beginsWith (name ++ ['=']) t then some (t.drop (name.length + 1)) else none

/-- `get_cookie_value` (lines 115–122): scan the `;`-split pairs in order and
return the first hit, `None` when the loop finishes. -/
def get_cookie_value (cookieHeader name : String) : Option String :=
  ((splitOnSemi cookieHeader.toList).findSome? (cookiePairValue name.toList)).map
    List.asString

/-- The outcome of the outbound `urlopen` call, as an oracle input.
`success` carries the already-parsed 2xx response body; a 2xx body that is
not valid JSON surfaces as `failure` (the `json.loads` exception falls into
the outer `except Exception`).  `httpError` carries `e.code`, the result of
parsing `e.read()` as JSON (`none` = parse failure), and `str(e)`. -/
inductive UpstreamResult where
  | success (respBody : JsonValue)
  | httpError (code : Nat) (errBody : Option JsonValue) (rawText : String)
  | failure (details : String)

/-- Everything a single `do_POST` invocation reads from its environment:
the relevant environment variables, the parsed request body (`none` models
the empty-body / bad-length / JSON-parse-failure cases), the `Cookie` header
(`""` when absent), the UUID the handler would mint, and the upstream
oracle. -/
structure RequestInput where
  apiKey : Option String
  envWorkflowId : Option String
  chatkitApiBase : Option String
  viteChatkitApiBase : Option String
  body : Option JsonValue
  cookieHeader : String
  freshUuid : String
  upstream : UpstreamResult

/-- An HTTP response as the handler emits it: status code, the headers sent
via `send_header` in order, and the JSON value serialised into the body. -/
structure Response where
  status : Nat
  headers : List (String × String)
  body : JsonValue

/-- The JSON payload of the outbound call, `{"workflow": {"id": ...},
"user": ...}`, together with the target URL. -/
structure UpstreamPayload where
  url : String
  workflowId : JsonValue
  user : String

/-- The observable effect of one invocation: the response written back, and
the outbound call if one was issued. -/
structure HandlerResult where
  response : Response
  upstreamCall : Option UpstreamPayload

/-- `send_error_response` (lines 107–113). -/
def send_error_response (code : Nat) (message : JsonValue) : Response :=
  { status := code
    headers := [("Content-Type", "application/json"), ("Access-Control-Allow-Origin", "*")]
    body := .obj [("error", message)] }

/-- The four headers sent on the success path (lines 76–79), in order. -/
def corsBaseHeaders : List (String × String) :=
  [("Content-Type", "application/json"),
   ("Access-Control-Allow-Origin", "*"),
   ("Access-Control-Allow-Methods", "POST, OPTIONS"),
   ("Access-Control-Allow-Headers", "Content-Type")]

/-- The `Set-Cookie` value of line 82. -/
def setCookieHeaderValue (userId : String) : String :=
  "chatkit_session_id=" ++ userId ++ "; Path=/; Max-Age=2592000; HttpOnly; SameSite=Lax"

/-- Line 47: `os.getenv('CHATKIT_API_BASE') or os.getenv('VITE_CHATKIT_API_BASE')
or 'https://api.openai.com'`. -/
def resolveApiBase (a b : Option String) : String :=
  if truthyStrO a then a.getD "" else if truthyStrO b then b.getD "" else "https://api.openai.com"

/-- Line 48: the outbound URL. -/
def sessionsUrl (inp : RequestInput) : String :=
  resolveApiBase inp.chatkitApiBase inp.viteChatkitApiBase ++ "/v1/chatkit/sessions"

/-- Lines 40–44: the `user` value sent upstream — the cookie value when
present, otherwise the freshly minted UUID. -/
def resolvedUser (inp : RequestInput) : String :=
  (get_cookie_value inp.cookieHeader "chatkit_session_id").getD inp.freshUuid

/-- Lines 40–97 of `do_POST`, after the api-key and workflow-id gates have
passed with workflow id `w`: resolve the user id from the cookie (lines
40–44), issue the upstream call, and translate its outcome.  The message
translation in the `httpError` arm models lines 87–94: the inner `try`
succeeds only when the error body parsed as a dict, and the bare `except`
turns every other case into `str(e)`. -/
def handleUpstream (inp : RequestInput) (w : JsonValue) : Except String HandlerResult :=
  let userId := resolvedUser inp
  let newCookie := (get_cookie_value inp.cookieHeader "chatkit_session_id").isNone
  let call : UpstreamPayload := ⟨sessionsUrl inp, w, userId⟩
  match inp.upstream with
  | .success respBody =>
    match pyGetAttrGet respBody "client_secret" with
    | .error e =>
      .ok ⟨send_error_response 502 (.str ("Failed to reach ChatKit API: " ++ e)), some call⟩
    | .ok none =>
      .ok ⟨send_error_response 502 (.str "Missing client secret"), some call⟩
    | .ok (some cs) =>
      if truthy cs = false then
        .ok ⟨send_error_response 502 (.str "Missing client secret"), some call⟩
      else
        .ok ⟨⟨200,
              corsBaseHeaders ++
                (if newCookie then [("Set-Cookie", setCookieHeaderValue userId)] else []),
              .obj [("client_secret", cs)]⟩,
             some call⟩
  | .httpError code errBody raw =>
    let msg : JsonValue :=
      match errBody with
      | some (.obj kvs) => (kvs.lookup "error").getD (.str raw)
      | _ => .str raw
    .ok ⟨send_error_response code msg, some call⟩
  | .failure details =>
    .ok ⟨send_error_response 502 (.str ("Failed to reach ChatKit API: " ++ details)),
         some call⟩

/-- `do_POST` (lines 13–97).  `.error e` models a Python exception escaping
the handler (nothing catches exceptions raised while resolving the workflow
id). -/
def do_POST (inp : RequestInput) : Except String HandlerResult :=
  if truthyStrO inp.apiKey = false then
    .ok ⟨send_error_response 500 (.str "Missing OPENAI_API_KEY"), none⟩
  else
    match resolveWorkflowId (inp.body.getD (.obj [])) inp.envWorkflowId with
    | .error e => .error e
    | .ok none => .ok ⟨send_error_response 400 (.str "Missing workflow id"), none⟩
    | .ok (some w) =>
      if truthy w = false then
        .ok ⟨send_error_response 400 (.str "Missing workflow id"), none⟩
      else
        handleUpstream inp w

/-- Workflow-id resolution as the spec words it: candidates in order are
`body.workflow.id` (considered only when the `workflow` member is a
mapping), `body.workflowId`, and the environment default; the first
non-empty (truthy) one wins, and `none` means no candidate was non-empty. -/
def specResolveWorkflowId (body : JsonValue) (envDefault : Option String) :
    Option JsonValue :=
  let c1 : Option JsonValue :=
    match body with
    | .obj kvs =>
      match kvs.lookup "workflow" with
      | some (.obj w) => w.lookup "id"
      | _ => none
    | _ => none
  let c2 : Option JsonValue :=
    match body with
    | .obj kvs => kvs.lookup "workflowId"
    | _ => none
  let c3 : Option JsonValue := envDefault.map JsonValue.str
  if truthyO c1 then c1 else if truthyO c2 then c2 else if truthyO c3 then c3 else none

/-- Split a character list at its first `=`, into the part before and the
part after; `none` when there is no `=`. -/
def splitAtFirstEq : List Char → Option (List Char × List Char)
  | [] => none
  | c :: cs =>
    if c = '=' then some ([], cs)
    else
      match splitAtFirstEq cs with
      | some kv => some (c :: kv.1, kv.2)
      | none => none

/-- Cookie lookup as the amended claim words it: over `;`-delimited pairs,
strip each pair of surrounding whitespace, split the stripped pair at its
first `=`, require an exact case-sensitive key match, first match wins, and
the value is everything after that first `=` (so it keeps no trailing
whitespace but does keep whitespace that followed the `=`). -/
def cookieLookupAmended (cookieHeader name : String) : Option String :=
  ((splitOnSemi cookieHeader.toList).findSome? fun pair =>
    match splitAtFirstEq (pyStrip pair) with
    | some kv => if kv.1 = name.toList then some kv.2 else none
    | none => none).map List.asString

theorem beginsWith_iff (p t : List Char) : beginsWith p t = true ↔ ∃ r, t = p ++ r := by
  induction p generalizing t with
  | nil => simp [beginsWith]
  | cons a as ih =>
    cases t with
    | nil => simp [beginsWith]
    | cons b bs =>
      simp only [beginsWith, Bool.and_eq_true, beq_iff_eq, ih, List.cons_append]
      constructor
      · rintro ⟨rfl, r, rfl⟩
        exact ⟨r, rfl⟩
      · rintro ⟨r, h⟩
        cases h
        exact ⟨rfl, r, rfl⟩

theorem splitAtFirstEq_append (k v : List Char) (hk : '=' ∉ k) :
    splitAtFirstEq (k ++ '=' :: v) = some (k, v) := by
  induction k with
  | nil => simp [splitAtFirstEq]
  | cons a as ih =>
    have ha : a ≠ '=' := fun h => hk (h ▸ List.mem_cons_self a as)
    have has : '=' ∉ as := fun h => hk (List.mem_cons_of_mem a h)
    simp [splitAtFirstEq, ha, ih has]

theorem splitAtFirstEq_eq_some (t k v : List Char) (h : splitAtFirstEq t = some (k, v)) :
    t = k ++ '=' :: v := by
  induction t generalizing k v with
  | nil => simp [splitAtFirstEq] at h
  | cons c cs ih =>
    by_cases hc : c = '='
    · subst hc
      simp [splitAtFirstEq] at h
      obtain ⟨rfl, rfl⟩ := h
      rfl
    · simp only [splitAtFirstEq, if_neg hc] at h
      cases hs : splitAtFirstEq cs with
      | none => rw [hs] at h; simp at h
      | some kv =>
        obtain ⟨k1, v1⟩ := kv
        rw [hs] at h
        simp only [Option.some.injEq, Prod.mk.injEq] at h
        obtain ⟨h1, h2⟩ := h
        subst h2
        subst h1
        simp [List.cons_append, ih k1 v1 hs]

theorem findSome?_congr {α β : Type} (f g : α → Option β) (h : ∀ a, f a = g a) :
    ∀ l : List α, l.findSome? f = l.findSome? g := by
  intro l
  induction l with
  | nil => rfl
  | cons a as ih => simp [List.findSome?_cons, h a, ih]

theorem cookiePairValue_eq_amended (name t : List Char) (hk : '=' ∉ name) :
    (if beginsWith (name ++ ['=']) t then some (t.drop (name.length + 1)) else none) =
      (match splitAtFirstEq t with
       | some kv => if kv.1 = name then some kv.2 else none
       | none => none) := by
  cases hb : beginsWith (name ++ ['=']) t with
  | true =>
    obtain ⟨r, rfl⟩ := (beginsWith_iff (name ++ ['=']) t).mp hb
    have hs : splitAtFirstEq (name ++ '=' :: r) = some (name, r) :=
      splitAtFirstEq_append name r hk
    have hd : ((name ++ ['=']) ++ r).drop (name.length + 1) = r := by
      have : (name ++ ['=']).length = name.length + 1 := by simp
      rw [← this, List.drop_left]
    simp only [List.append_assoc, List.singleton_append] at hd ⊢
    rw [hs, hd]
    simp
  | false =>
    cases hs : splitAtFirstEq t with
    | none => simp
    | some kv =>
      have ht := splitAtFirstEq_eq_some t kv.1 kv.2 (by simpa using hs)
      by_cases hkv : kv.1 = name
      · exfalso
        subst hkv
        have : beginsWith (kv.1 ++ ['=']) t = true := by
          rw [beginsWith_iff]
          exact ⟨kv.2, by simpa using ht⟩
        rw [this] at hb
        simp at hb
      · simp [hkv]

theorem lookup_isSome_of_any (kvs : List (String × JsonValue)) (s : String) :
    (kvs.any fun kv => kv.1 == s) = (kvs.lookup s).isSome := by
  induction kvs with
  | nil => rfl
  | cons kv rest ih =>
    have hsymm : (kv.1 == s) = (s == kv.1) := by
      cases h : kv.1 == s with
      | true =>
        rw [beq_iff_eq] at h
        subst h
        simp
      | false =>
        cases h2 : s == kv.1 with
        | true =>
          rw [beq_iff_eq] at h2
          subst h2
          simp at h
        | false => rfl
    simp only [List.any_cons, List.lookup, hsymm]
    cases h : s == kv.1 <;> simp [h, ih]

theorem resolveWorkflowId_obj (kvs : List (String × JsonValue)) (env : Option String) :
    resolveWorkflowId (.obj kvs) env =
      .ok (let c1 : Option JsonValue :=
             match kvs.lookup "workflow" with
             | some (.obj w) => w.lookup "id"
             | _ => none
           let c2 : Option JsonValue := kvs.lookup "workflowId"
           if truthyO c1 then c1 else if truthyO c2 then c2
           else env.map JsonValue.str) := by
  unfold resolveWorkflowId
  simp only [pyIn, lookup_isSome_of_any]
  cases hw : kvs.lookup "workflow" with
  | none => simp [truthyO, pyGetAttrGet]
  | some w =>
    simp only [Option.isSome_some, if_pos rfl, pyGetItemStr, hw, pyGetAttrGet]
    cases w with
    | obj wkvs =>
      cases hc1 : truthyO (wkvs.lookup "id") with
      | true => simp [hc1]
      | false => simp [hc1]
    | null => simp [truthyO]
    | bool b => simp [truthyO]
    | num n => simp [truthyO]
    | str s => simp [truthyO]
    | arr xs => simp [truthyO]

theorem handleUpstream_isOk (inp : RequestInput) (w : JsonValue) :
    ∃ res, handleUpstream inp w = .ok res := by
  unfold handleUpstream
  cases hu : inp.upstream with
  | success respBody =>
    simp only []
    cases hg : pyGetAttrGet respBody "client_secret" with
    | error e => exact ⟨_, rfl⟩
    | ok cso =>
      cases cso with
      | none => exact ⟨_, rfl⟩
      | some cs =>
        simp only []
        by_cases hcs : truthy cs = false
        · rw [if_pos hcs]
          exact ⟨_, rfl⟩
        · rw [if_neg hcs]
          exact ⟨_, rfl⟩
  | httpError code errBody raw => exact ⟨_, rfl⟩
  | failure d => exact ⟨_, rfl⟩

theorem do_POST_eq_handleUpstream (inp : RequestInput) (w : JsonValue)
    (hkey : truthyStrO inp.apiKey = true)
    (hw : resolveWorkflowId (inp.body.getD (.obj [])) inp.envWorkflowId = .ok (some w))
    (htw : truthy w = true) :
    do_POST inp = handleUpstream inp w := by
  unfold do_POST
  simp [hkey, hw, htw]

theorem do_POST_ok_of_resolve_ok (inp : RequestInput) (r : Option JsonValue)
    (h : resolveWorkflowId (inp.body.getD (.obj [])) inp.envWorkflowId = .ok r) :
    ∃ res, do_POST inp = .ok res := by
  by_cases hk : truthyStrO inp.apiKey = false
  · refine ⟨⟨send_error_response 500 (.str "Missing OPENAI_API_KEY"), none⟩, ?_⟩
    unfold do_POST
    rw [if_pos hk]
  · have hk' : truthyStrO inp.apiKey = true := by
      cases hx : truthyStrO inp.apiKey
      · exact absurd hx hk
      · rfl
    cases r with
    | none =>
      refine ⟨⟨send_error_response 400 (.str "Missing workflow id"), none⟩, ?_⟩
      unfold do_POST
      rw [if_neg hk, h]
    | some w =>
      by_cases htw : truthy w = false
      · refine ⟨⟨send_error_response 400 (.str "Missing workflow id"), none⟩, ?_⟩
        unfold do_POST
        rw [if_neg hk, h]
        simp [htw]
      · have htw' : truthy w = true := by
          cases hx : truthy w
          · exact absurd hx htw
          · rfl
        rw [do_POST_eq_handleUpstream inp w hk' h htw']
        exact handleUpstream_isOk inp w

/-- C1, counterexample: the claim promises HTTP 200 whenever the 2xx upstream
body contains a `client_secret` field, but the code tests the field for
truthiness, so a present-but-empty `client_secret` is answered with
HTTP 502 `Missing client secret`, not 200. -/
theorem c1_counterexample :
    ([("client_secret", JsonValue.str "")].lookup "client_secret" = some (.str ""))
  ∧ do_POST ⟨some "k", none, none, none, some (.obj [("workflowId", .str "B")]), "", "u",
      .success (.obj [("client_secret", .str "")])⟩ =
      .ok ⟨send_error_response 502 (.str "Missing client secret"),
           some ⟨"https://api.openai.com/v1/chatkit/sessions", .str "B", "u"⟩⟩
  ∧ (502 : Nat) ≠ 200 := ⟨rfl, rfl, by decide⟩

/-- C1 (amended): for every POST request whose upstream call succeeds with a
2xx JSON object containing a non-empty (truthy) `client_secret` field, the
handler responds HTTP 200 with body exactly `{"client_secret": <that value>}`,
retaining no other upstream response field. -/
theorem c1_amended (inp : RequestInput) (w : JsonValue)
    (kvs : List (String × JsonValue)) (v : JsonValue)
    (hkey : truthyStrO inp.apiKey = true)
    (hw : resolveWorkflowId (inp.body.getD (.obj [])) inp.envWorkflowId = .ok (some w))
    (htw : truthy w = true)
    (hup : inp.upstream = .success (.obj kvs))
    (hcs : kvs.lookup "client_secret" = some v)
    (hv : truthy v = true) :
    ∃ r, do_POST inp = .ok r ∧ r.response.status = 200 ∧
      r.response.body = .obj [("client_secret", v)] := by
  rw [do_POST_eq_handleUpstream inp w hkey hw htw]
  unfold handleUpstream
  rw [hup]
  simp only [pyGetAttrGet, hcs]
  rw [if_neg (by simp [hv] : ¬(truthy v = false))]
  exact ⟨_, rfl, rfl, rfl⟩

/-- C1 (amended), witness at the spec's own example value `sk_abc`. -/
theorem c1_amended_witness :
    ∃ r, do_POST ⟨some "k", none, none, none, some (.obj [("workflowId", .str "B")]), "", "u",
        .success (.obj [("client_secret", .str "sk_abc")])⟩ = .ok r ∧
      r.response.status = 200 ∧
      r.response.body = .obj [("client_secret", .str "sk_abc")] :=
  c1_amended
    ⟨some "k", none, none, none, some (.obj [("workflowId", .str "B")]), "", "u",
      .success (.obj [("client_secret", .str "sk_abc")])⟩
    (.str "B") [("client_secret", .str "sk_abc")] (.str "sk_abc")
    rfl rfl rfl rfl rfl rfl

/-- C2: for mapping request bodies, the workflow id is resolved with
precedence `body.workflow.id` (only when `workflow` is itself a mapping),
then `body.workflowId`, then the environment default, first non-empty
(truthy) value winning; and when no candidate is non-empty the code
resolves to a falsy value, so the id counts as missing. -/
theorem c2_precedence (kvs : List (String × JsonValue)) (env : Option String) :
    (∀ v, specResolveWorkflowId (.obj kvs) env = some v →
        resolveWorkflowId (.obj kvs) env = .ok (some v))
  ∧ (specResolveWorkflowId (.obj kvs) env = none →
        ∃ r, resolveWorkflowId (.obj kvs) env = .ok r ∧ truthyO r = false) := by
  simp only [resolveWorkflowId_obj, specResolveWorkflowId]
  constructor
  · intro v hv
    split_ifs at hv ⊢ with h1 h2 h3 <;> simp_all
  · intro hv
    split_ifs at hv with h1 h2 h3
    · rw [hv] at h1
      simp [truthyO] at h1
    · rw [hv] at h2
      simp [truthyO] at h2
    · rw [hv] at h3
      simp [truthyO] at h3
    · rw [if_neg h1, if_neg h2]
      exact ⟨_, rfl, by simpa using h3⟩

/-- C2, witness: the spec's example body resolves to "A", with precedence
over both "B" and an environment default. -/
theorem c2_precedence_witness :
    resolveWorkflowId
        (.obj [("workflow", .obj [("id", .str "A")]), ("workflowId", .str "B")])
        (some "C") =
      .ok (some (.str "A")) :=
  (c2_precedence [("workflow", .obj [("id", .str "A")]), ("workflowId", .str "B")]
    (some "C")).1 (.str "A") rfl

/-- C3: when the request carries no `chatkit_session_id` cookie and the
upstream call succeeds, the response carries a `Set-Cookie` header of the
form `chatkit_session_id=<fresh uuid>; Path=/; Max-Age=2592000; HttpOnly;
SameSite=Lax` built from the freshly minted UUID; when the request does
carry the cookie, its exact value is forwarded as the `user` field of the
upstream payload and no `Set-Cookie` header is emitted. -/
theorem c3_cookie_round_trip (inp : RequestInput) (w : JsonValue)
    (kvs : List (String × JsonValue)) (v : JsonValue)
    (hkey : truthyStrO inp.apiKey = true)
    (hw : resolveWorkflowId (inp.body.getD (.obj [])) inp.envWorkflowId = .ok (some w))
    (htw : truthy w = true)
    (hup : inp.upstream = .success (.obj kvs))
    (hcs : kvs.lookup "client_secret" = some v)
    (hv : truthy v = true) :
    (get_cookie_value inp.cookieHeader "chatkit_session_id" = none →
       ∃ r, do_POST inp = .ok r ∧
         ("Set-Cookie", setCookieHeaderValue inp.freshUuid) ∈ r.response.headers)
  ∧ (∀ cv, get_cookie_value inp.cookieHeader "chatkit_session_id" = some cv →
       ∃ r, do_POST inp = .ok r ∧
         r.upstreamCall = some ⟨sessionsUrl inp, w, cv⟩ ∧
         ∀ x, ("Set-Cookie", x) ∉ r.response.headers) := by
  rw [do_POST_eq_handleUpstream inp w hkey hw htw]
  unfold handleUpstream
  rw [hup]
  simp only [pyGetAttrGet, hcs]
  rw [if_neg (by simp [hv] : ¬(truthy v = false))]
  constructor
  · intro hc
    refine ⟨_, rfl, ?_⟩
    simp [resolvedUser, hc, corsBaseHeaders]
  · intro cv hc
    refine ⟨_, rfl, ?_, ?_⟩
    · simp [resolvedUser, hc]
    · intro x
      simp [hc, corsBaseHeaders]

/-- C3, witness: a cookie-less request gets the Set-Cookie header carrying
its fresh UUID; a request presenting that cookie forwards the value as the
upstream user and gets no Set-Cookie header. -/
theorem c3_cookie_round_trip_witness :
    (∃ r, do_POST ⟨some "k", none, none, none, some (.obj [("workflowId", .str "B")]), "",
         "uuid-1", .success (.obj [("client_secret", .str "sk")])⟩ = .ok r ∧
       ("Set-Cookie", setCookieHeaderValue "uuid-1") ∈ r.response.headers)
  ∧ (∃ r, do_POST ⟨some "k", none, none, none, some (.obj [("workflowId", .str "B")]),
         "chatkit_session_id=uuid-1", "other-uuid",
         .success (.obj [("client_secret", .str "sk")])⟩ = .ok r ∧
       r.upstreamCall =
         some ⟨"https://api.openai.com/v1/chatkit/sessions", .str "B", "uuid-1"⟩ ∧
       ∀ x, ("Set-Cookie", x) ∉ r.response.headers) :=
  ⟨(c3_cookie_round_trip
      ⟨some "k", none, none, none, some (.obj [("workflowId", .str "B")]), "", "uuid-1",
        .success (.obj [("client_secret", .str "sk")])⟩
      (.str "B") [("client_secret", .str "sk")] (.str "sk")
      rfl rfl rfl rfl rfl rfl).1 rfl,
   (c3_cookie_round_trip
      ⟨some "k", none, none, none, some (.obj [("workflowId", .str "B")]),
        "chatkit_session_id=uuid-1", "other-uuid",
        .success (.obj [("client_secret", .str "sk")])⟩
      (.str "B") [("client_secret", .str "sk")] (.str "sk")
      rfl rfl rfl rfl rfl rfl).2 "uuid-1" rfl⟩

/-- C4: on an upstream HTTP error the handler responds with exactly the
upstream's status code and body `{"error": <message>}`, the message being
the `error` field of the upstream error body when that body parses as a
JSON object carrying one, and the raw error text when the body does not
parse as JSON. -/
theorem c4_upstream_http_error (inp : RequestInput) (w : JsonValue)
    (hkey : truthyStrO inp.apiKey = true)
    (hw : resolveWorkflowId (inp.body.getD (.obj [])) inp.envWorkflowId = .ok (some w))
    (htw : truthy w = true)
    (code : Nat) (raw : String) :
    (∀ kvs m, inp.upstream = .httpError code (some (.obj kvs)) raw →
        kvs.lookup "error" = some m →
        do_POST inp = .ok ⟨send_error_response code m,
          some ⟨sessionsUrl inp, w, resolvedUser inp⟩⟩)
  ∧ (inp.upstream = .httpError code none raw →
        do_POST inp = .ok ⟨send_error_response code (.str raw),
          some ⟨sessionsUrl inp, w, resolvedUser inp⟩⟩) := by
  rw [do_POST_eq_handleUpstream inp w hkey hw htw]
  unfold handleUpstream
  constructor
  · intro kvs m hup hm
    rw [hup]
    simp [hm]
  · intro hup
    rw [hup]

/-- C4, witness at the spec's example: upstream HTTP 429 with body
`{"error": "rate limited"}` is relayed as HTTP 429 with the same error
body. -/
theorem c4_upstream_http_error_witness :
    do_POST ⟨some "k", none, none, none, some (.obj [("workflowId", .str "B")]), "", "u",
        .httpError 429 (some (.obj [("error", .str "rate limited")]))
          "HTTP Error 429: Too Many Requests"⟩ =
      .ok ⟨send_error_response 429 (.str "rate limited"),
           some ⟨"https://api.openai.com/v1/chatkit/sessions", .str "B", "u"⟩⟩ :=
  (c4_upstream_http_error
      ⟨some "k", none, none, none, some (.obj [("workflowId", .str "B")]), "", "u",
        .httpError 429 (some (.obj [("error", .str "rate limited")]))
          "HTTP Error 429: Too Many Requests"⟩
      (.str "B") rfl rfl rfl 429 "HTTP Error 429: Too Many Requests").1
    [("error", .str "rate limited")] (.str "rate limited") rfl rfl

/-- C5: when the upstream call fails with any exception other than an HTTP
error (unreachable host, timeout, malformed 2xx body), the handler responds
HTTP 502 with `{"error": "Failed to reach ChatKit API: <details>"}`; and
when the 2xx JSON object lacks a `client_secret` field it responds HTTP 502
with `{"error": "Missing client secret"}`. -/
theorem c5_upstream_unreachable (inp : RequestInput) (w : JsonValue)
    (hkey : truthyStrO inp.apiKey = true)
    (hw : resolveWorkflowId (inp.body.getD (.obj [])) inp.envWorkflowId = .ok (some w))
    (htw : truthy w = true) :
    (∀ d, inp.upstream = .failure d →
        do_POST inp = .ok ⟨send_error_response 502
            (.str ("Failed to reach ChatKit API: " ++ d)),
          some ⟨sessionsUrl inp, w, resolvedUser inp⟩⟩)
  ∧ (∀ kvs, inp.upstream = .success (.obj kvs) →
        kvs.lookup "client_secret" = none →
        do_POST inp = .ok ⟨send_error_response 502 (.str "Missing client secret"),
          some ⟨sessionsUrl inp, w, resolvedUser inp⟩⟩) := by
  rw [do_POST_eq_handleUpstream inp w hkey hw htw]
  unfold handleUpstream
  constructor
  · intro d hup
    rw [hup]
  · intro kvs hup hcs
    rw [hup]
    simp [pyGetAttrGet, hcs]

/-- C5, witness: a network failure is reported as 502 with the exception
details, and a 2xx body without client_secret as 502 Missing client
secret. -/
theorem c5_upstream_unreachable_witness :
    do_POST ⟨some "k", none, none, none, some (.obj [("workflowId", .str "B")]), "", "u",
        .failure "timed out"⟩ =
      .ok ⟨send_error_response 502 (.str "Failed to reach ChatKit API: timed out"),
           some ⟨"https://api.openai.com/v1/chatkit/sessions", .str "B", "u"⟩⟩
  ∧ do_POST ⟨some "k", none, none, none, some (.obj [("workflowId", .str "B")]), "", "u",
        .success (.obj [("session_id", .str "s")])⟩ =
      .ok ⟨send_error_response 502 (.str "Missing client secret"),
           some ⟨"https://api.openai.com/v1/chatkit/sessions", .str "B", "u"⟩⟩ :=
  ⟨(c5_upstream_unreachable
      ⟨some "k", none, none, none, some (.obj [("workflowId", .str "B")]), "", "u",
        .failure "timed out"⟩
      (.str "B") rfl rfl rfl).1 "timed out" rfl,
   (c5_upstream_unreachable
      ⟨some "k", none, none, none, some (.obj [("workflowId", .str "B")]), "", "u",
        .success (.obj [("session_id", .str "s")])⟩
      (.str "B") rfl rfl rfl).2 [("session_id", .str "s")] rfl rfl⟩

/-- C6, counterexample: the claim says the returned cookie value is trimmed
of surrounding whitespace, but for the header `chatkit_session_id= abc` the
code returns `" abc"`, keeping the leading whitespace that followed the
`=` (only the pair, not the value, is stripped). -/
theorem c6_counterexample :
    get_cookie_value "chatkit_session_id= abc" "chatkit_session_id" = some " abc"
  ∧ (pyStrip " abc".toList).asString = "abc"
  ∧ (" abc" : String) ≠ "abc" := ⟨rfl, rfl, by decide⟩

/-- C6 (amended): the `chatkit_session_id` lookup is a key-value parse over
`;`-delimited pairs — each pair stripped of surrounding whitespace, exact
case-sensitive key match, first match wins — whose returned value is
everything after the first `=` of the stripped pair: trailing whitespace is
gone (with the pair strip) but whitespace right after the `=` is kept. -/
theorem c6_amended (h : String) :
    get_cookie_value h "chatkit_session_id" = cookieLookupAmended h "chatkit_session_id" := by
  unfold get_cookie_value cookieLookupAmended
  congr 1
  apply findSome?_congr
  intro pair
  have hk : '=' ∉ ("chatkit_session_id".toList) := by decide
  have := cookiePairValue_eq_amended ("chatkit_session_id".toList) (pyStrip pair) hk
  simpa [cookiePairValue] using this

/-- C7: an empty or unparseable request body does not fail the request at
the body-parsing stage — the handler behaves exactly as if the body were
the empty mapping, workflow-id resolution falls through to the environment
default, and the handler returns a response (no exception escapes). -/
theorem c7_malformed_body (inp : RequestInput) (hb : inp.body = none) :
    do_POST inp = do_POST { inp with body := some (.obj []) }
  ∧ resolveWorkflowId (.obj []) inp.envWorkflowId = .ok (inp.envWorkflowId.map JsonValue.str)
  ∧ ∃ r, do_POST inp = .ok r := by
  refine ⟨?_, rfl, ?_⟩
  · unfold do_POST
    rw [hb]
    rfl
  · exact do_POST_ok_of_resolve_ok inp (inp.envWorkflowId.map JsonValue.str)
      (by rw [hb]; rfl)

/-- C7, witness: with no parse result the handler runs as with `{}`,
resolves the environment default, and completes normally. -/
theorem c7_malformed_body_witness :
    (do_POST ⟨some "k", some "wf", none, none, none, "", "u", .failure "boom"⟩ =
       do_POST ⟨some "k", some "wf", none, none, some (.obj []), "", "u", .failure "boom"⟩)
  ∧ resolveWorkflowId (.obj []) (some "wf") = .ok (some (.str "wf"))
  ∧ ∃ r, do_POST ⟨some "k", some "wf", none, none, none, "", "u", .failure "boom"⟩ = .ok r :=
  c7_malformed_body ⟨some "k", some "wf", none, none, none, "", "u", .failure "boom"⟩ rfl

/-- C8: when the `OPENAI_API_KEY` environment variable is absent every POST
request is answered with HTTP 500 `{"error": "Missing OPENAI_API_KEY"}`,
whatever the body, and no upstream call is issued. -/
theorem c8_missing_api_key (inp : RequestInput) (h : inp.apiKey = none) :
    do_POST inp = .ok ⟨send_error_response 500 (.str "Missing OPENAI_API_KEY"), none⟩ := by
  unfold do_POST
  rw [h]
  rfl

/-- C8, witness: a request with a body, a workflow id and a working
upstream still gets 500 when the key is missing. -/
theorem c8_missing_api_key_witness :
    do_POST ⟨none, some "wf", none, none, some (.obj [("workflowId", .str "B")]), "", "u",
        .success (.obj [("client_secret", .str "sk")])⟩ =
      .ok ⟨send_error_response 500 (.str "Missing OPENAI_API_KEY"), none⟩ :=
  c8_missing_api_key
    ⟨none, some "wf", none, none, some (.obj [("workflowId", .str "B")]), "", "u",
      .success (.obj [("client_secret", .str "sk")])⟩ rfl

/-- C9: when no workflow identifier resolves to a non-empty value from the
body or the environment default, the handler responds HTTP 400
`{"error": "Missing workflow id"}` and no upstream call is issued. -/
theorem c9_missing_workflow_id (inp : RequestInput) (r : Option JsonValue)
    (hkey : truthyStrO inp.apiKey = true)
    (hr : resolveWorkflowId (inp.body.getD (.obj [])) inp.envWorkflowId = .ok r)
    (hfr : truthyO r = false) :
    do_POST inp = .ok ⟨send_error_response 400 (.str "Missing workflow id"), none⟩ := by
  unfold do_POST
  rw [if_neg (by simp [hkey] : ¬(truthyStrO inp.apiKey = false)), hr]
  cases r with
  | none => rfl
  | some w =>
    have hw : truthy w = false := by simpa [truthyO] using hfr
    simp [hw]

/-- C9, witness: empty body and no environment default gives 400 with no
upstream call. -/
theorem c9_missing_workflow_id_witness :
    do_POST ⟨some "k", none, none, none, none, "", "u", .failure "x"⟩ =
      .ok ⟨send_error_response 400 (.str "Missing workflow id"), none⟩ :=
  c9_missing_workflow_id ⟨some "k", none, none, none, none, "", "u", .failure "x"⟩
    none rfl rfl rfl

/-- C10: a body that is valid JSON but not a JSON object — here the array
`[1]` and the string `"x"` — and resolves no workflow id via a workflow
mapping makes workflow-id resolution call the mapping accessor `.get` on a
non-mapping value, so an unhandled exception escapes the handler (even
though an environment default workflow id is available): the empty-mapping
fallback covers only empty bodies and parse failures. -/
theorem c10_non_object_body_crash :
    do_POST ⟨some "k", some "wf", none, none, some (.arr [.num 1]), "", "u", .failure "x"⟩ =
      .error "AttributeError: list object has no attribute get"
  ∧ do_POST ⟨some "k", some "wf", none, none, some (.str "x"), "", "u", .failure "x"⟩ =
      .error "AttributeError: str object has no attribute get" := ⟨rfl, rfl⟩
